import Mathlib

/-!
Shallow embedding of the newsletter-generator backend (Python) in Lean 4,
covering the intent-routing / action-dispatch / context-memory core and the
hallucination-guard validation logic.

Conventions of the embedding:
* Python strings are Lean String; Python str.lower / substring tests are
  modelled character-wise (strToLower, strContains, ...), which agrees with
  the ASCII phrases the code uses.
* Python float literals occurring in the code (5.0, 0.7, 0.85, 1.5, ...) are
  modelled as rationals; every comparison the code performs on them has the
  same outcome on the rational values as on the IEEE doubles.
* A Python call that may raise is modelled as an Except String value; a
  try/except block is a match on that value.
* Python dicts with string keys are modelled as insertion-ordered
  association lists, matching CPython dict semantics (unique keys,
  update-in-place keeps position, fresh keys append).
-/

namespace NewsGen

/-- Character-wise lowercasing, modelling Python str.lower on the ASCII
phrases used by the classifier. -/
def strToLower (s : String) : String :=
  String.mk (s.toList.map Char.toLower)

/-- Test that the first character list occurs contiguously inside the
second one. -/
def listInfix (needle : List Char) : List Char → Bool
  | [] => needle.isEmpty
  | c :: rest => needle.isPrefixOf (c :: rest) || listInfix needle rest

/-- Substring containment, modelling the Python expression testing whether
one string occurs inside another. -/
def strContains (s sub : String) : Bool :=
  listInfix sub.toList s.toList

/-- Character-wise test that s begins with p, modelling str.startswith. -/
def strStartsWith (s p : String) : Bool :=
  p.toList.isPrefixOf s.toList

/-- Character-wise test that s ends with p, modelling str.endswith. -/
def strEndsWith (s p : String) : Bool :=
  p.toList.isSuffixOf s.toList

/-- One entry of the images list handed to the EventDetails validator: the
Python value is either a string or some non-string JSON value (the
validator silently skips non-strings). -/
inductive ImageEntry where
  | str (s : String)
  | nonString
deriving DecidableEq

/-- Embedding of EventDetails.validate_images
(src/backend/app/models/newsletter.py): keep strings with an http:// or
https:// scheme, skip strings ending in .jpg/.png/.jpeg, keep every other
string, skip non-strings. -/
def validate_images (v : List ImageEntry) : List String :=
  if v = [] then []
  else
    v.foldl
      (fun valid_images img =>
        match img with
        | ImageEntry.str s =>
          if strStartsWith s "http://" || strStartsWith s "https://" then
            valid_images ++ [s]
          else if strEndsWith s ".jpg" || strEndsWith s ".png" || strEndsWith s ".jpeg" then
            valid_images
          else
            valid_images ++ [s]
        | ImageEntry.nonString => valid_images)
      []

/-- Event record as the dict shape flowing through the services: the four
required fields inspected by the structure validator plus cost. An absent
Python dict key is modelled as the empty string, which the truthiness test
of the validator treats the same way as an empty value. -/
structure EventRec where
  event_title : String
  description : String
  location : String
  cost : String
  date : String
deriving DecidableEq

/-- Embedding of AIService._validate_event_structure
(src/backend/app/services/ai_service.py): all required fields are present
and truthy. -/
def validate_event_structure (e : EventRec) : Bool :=
  (e.event_title != "") && (e.description != "") && (e.location != "") && (e.date != "")

/-- The hardcoded fake-venue indicator list of
AIService._validate_and_enhance_content. -/
def fake_indicators : List String :=
  ["avalon", "retronics", "community kitchen", "town square",
    "kids science workshop", "holiday baking class", "winter wonderland festival"]

/-- Test of one candidate event against the fake indicators, on the
lower-cased title and location, as in the detection loop of
_validate_and_enhance_content. -/
def eventMatchesFakeIndicator (e : EventRec) : Bool :=
  fake_indicators.any (fun ind =>
    strContains (strToLower e.event_title) ind || strContains (strToLower e.location) ind)

/-- Embedding of the events-field processing of
AIService._validate_and_enhance_content
(src/backend/app/services/ai_service.py): the candidate events are checked
against the fake indicators (the whole list is cleared on any hit), then
unconditionally overwritten by the verified list (or the empty list when no
verified events exist), and finally the structure validator filters what
remains. -/
def validate_and_enhance_events (candidate verified : List EventRec) : List EventRec :=
  let eventsAfterFakeCheck : List EventRec :=
    if candidate.any eventMatchesFakeIndicator then [] else candidate
  let eventsAfterAllowList : List EventRec :=
    if verified.isEmpty then [] else verified
  let _ := eventsAfterFakeCheck
  eventsAfterAllowList.filter (fun e => validate_event_structure e)

/-- The closed ActionType enum of
src/backend/app/services/context_aware_ai_service_fixed.py. -/
inductive ActionType where
  | generate_newsletter
  | add_events
  | change_events
  | change_tone
  | delete_events
  | search_web
  | search_events
  | customize_content
  | respond_in_chat
  | update_newsletter
deriving DecidableEq

/-- The string value of each enum member, as in the Python Enum. -/
def ActionType.value : ActionType → String
  | .generate_newsletter => "generate_newsletter"
  | .add_events => "add_events"
  | .change_events => "change_events"
  | .change_tone => "change_tone"
  | .delete_events => "delete_events"
  | .search_web => "search_web"
  | .search_events => "search_events"
  | .customize_content => "customize_content"
  | .respond_in_chat => "respond_in_chat"
  | .update_newsletter => "update_newsletter"

/-- The Python str() rendering of an enum member, as interpolated into the
unknown-action error message of _execute_action. -/
def ActionType.pyStr : ActionType → String
  | .generate_newsletter => "ActionType.GENERATE_NEWSLETTER"
  | .add_events => "ActionType.ADD_EVENTS"
  | .change_events => "ActionType.CHANGE_EVENTS"
  | .change_tone => "ActionType.CHANGE_TONE"
  | .delete_events => "ActionType.DELETE_EVENTS"
  | .search_web => "ActionType.SEARCH_WEB"
  | .search_events => "ActionType.SEARCH_EVENTS"
  | .customize_content => "ActionType.CUSTOMIZE_CONTENT"
  | .respond_in_chat => "ActionType.RESPOND_IN_CHAT"
  | .update_newsletter => "ActionType.UPDATE_NEWSLETTER"

/-- Inverse of ActionType.value: the Python ActionType(str) constructor,
which raises ValueError (here: none) on a string outside the enum. -/
def actionTypeFromValue (s : String) : Option ActionType :=
  if s = "generate_newsletter" then some .generate_newsletter
  else if s = "add_events" then some .add_events
  else if s = "change_events" then some .change_events
  else if s = "change_tone" then some .change_tone
  else if s = "delete_events" then some .delete_events
  else if s = "search_web" then some .search_web
  else if s = "search_events" then some .search_events
  else if s = "customize_content" then some .customize_content
  else if s = "respond_in_chat" then some .respond_in_chat
  else if s = "update_newsletter" then some .update_newsletter
  else none

/-- A parameter value in the parameters dict of an ActionDecision: the code
stores strings, numbers (modelled as rationals) and string lists. -/
inductive PValue where
  | s (v : String)
  | q (v : ℚ)
  | strList (v : List String)
deriving DecidableEq

/-- Embedding of the ActionDecision dataclass. -/
structure ActionDecision where
  action_type : ActionType
  target : String
  parameters : List (String × PValue)
  reasoning : String
  confidence : ℚ
deriving DecidableEq

/-- The slice of the request context the rule-based classifier reads: the
postcode supplied by the caller, when any. -/
structure Ctx where
  postcode : Option String
deriving DecidableEq

/-- Newsletter-generation phrase group (first group checked). -/
def newsletterGenPhrases : List String :=
  ["generate newsletter", "create newsletter", "make newsletter",
    "new newsletter", "generate a newsletter", "create a newsletter"]

/-- Add-events phrase group (second group checked). -/
def addEventsPhrases : List String :=
  ["add more events", "add events", "more events", "find more events",
    "add additional events", "include more events"]

/-- Change-tone phrase group (third group checked). -/
def changeTonePhrases : List String :=
  ["change tone", "change the tone", "make it more", "tone to",
    "more casual", "more professional", "more friendly", "more formal"]

/-- Delete-events phrase group (fourth group checked). -/
def deleteEventsPhrases : List String :=
  ["delete events", "remove events", "delete event", "remove event",
    "delete any events", "remove any events", "delete expensive",
    "remove expensive", "delete paid", "remove paid"]

/-- Search-events phrase group (fifth group checked). -/
def searchEventsPhrases : List String :=
  ["find events", "search events", "what events", "events happening",
    "events available", "show me events", "list events"]

/-- Web-search phrase group (sixth group checked, after the event group). -/
def webSearchPhrases : List String :=
  ["search for", "look up", "find information", "what is",
    "tell me about", "search web", "google"]

/-- Test whether any phrase of a group occurs in the lower-cased message,
modelling the any-generator over the pattern list. -/
def matchesAny (message_lower : String) (phrases : List String) : Bool :=
  phrases.any (fun p => strContains message_lower p)

/-- Embedding of ContextAwareAIService._rule_based_intent_analysis
(src/backend/app/services/context_aware_ai_service_fixed.py, lines
220-351): the six phrase groups are tried in source order on the
lower-cased message; the first matching group returns its fixed
ActionDecision; no match falls through to the chat default. -/
def rule_based_intent_analysis (user_message : String) (context : Ctx) : ActionDecision :=
  let message_lower := strToLower user_message
  if matchesAny message_lower newsletterGenPhrases then
    let postcode := context.postcode.getD "TS1 3BA"
    let frequency :=
      if strContains message_lower "weekly" then "weekly"
      else if strContains message_lower "monthly" then "monthly"
      else "weekly"
    let target_audience :=
      if strContains message_lower "families" then "families with children in social housing"
      else if strContains message_lower "children" then "families with children in social housing"
      else "families with children in social housing"
    { action_type := .generate_newsletter
      target := "newsletter"
      parameters :=
        [("postcode", .s postcode), ("radius", .q 5),
          ("frequency", .s frequency), ("target_audience", .s target_audience)]
      reasoning := "User explicitly requested newsletter generation with " ++ frequency
        ++ " frequency for " ++ target_audience
      confidence := mkRat 9 10 }
  else if matchesAny message_lower addEventsPhrases then
    { action_type := .add_events
      target := "newsletter"
      parameters :=
        [("postcode", .s (context.postcode.getD "TS1 3BA")), ("radius", .q 10),
          ("frequency", .s "weekly")]
      reasoning := "User wants to add more events to existing newsletter"
      confidence := mkRat 85 100 }
  else if matchesAny message_lower changeTonePhrases then
    let tone :=
      if strContains message_lower "casual" || strContains message_lower "friendly" then
        "casual and friendly"
      else if strContains message_lower "professional" || strContains message_lower "formal" then
        "professional and informative"
      else if strContains message_lower "enthusiastic" then
        "enthusiastic and engaging"
      else "friendly and informative"
    { action_type := .change_tone
      target := "newsletter"
      parameters := [("tone", .s tone)]
      reasoning := "User wants to change newsletter tone to " ++ tone
      confidence := mkRat 8 10 }
  else if matchesAny message_lower deleteEventsPhrases then
    let criteria : List String :=
      if strContains message_lower "expensive" || strContains message_lower "cost"
          || strContains message_lower "Â£" || strContains message_lower "$" then
        ["expensive events"]
      else []
    { action_type := .delete_events
      target := "newsletter"
      parameters := [("criteria", .strList criteria)]
      reasoning := "User wants to delete events based on criteria: "
        ++ (if criteria.isEmpty then "user specification" else String.intercalate ", " criteria)
      confidence := mkRat 8 10 }
  else if matchesAny message_lower searchEventsPhrases then
    { action_type := .search_events
      target := "chat"
      parameters :=
        [("postcode", .s (context.postcode.getD "TS1 3BA")), ("radius", .q 5),
          ("frequency", .s "weekly")]
      reasoning := "User wants to search for events - providing information in chat"
      confidence := mkRat 8 10 }
  else if matchesAny message_lower webSearchPhrases then
    { action_type := .search_web
      target := "chat"
      parameters := [("query", .s user_message)]
      reasoning := "User wants web search information - providing results in chat"
      confidence := mkRat 75 100 }
  else
    { action_type := .respond_in_chat
      target := "chat"
      parameters := []
      reasoning := "Request pattern not clearly identified - providing helpful chat response"
      confidence := mkRat 1 2 }

/-- Parsed JSON object returned by the generative classifier escalation
call. A missing key is none: reading it raises KeyError in the source,
except for parameters and confidence which are read with defaults. -/
structure LLMJson where
  action_type : Option String
  target : Option String
  parameters : Option (List (String × PValue))
  reasoning : Option String
  confidence : Option ℚ
deriving DecidableEq

/-- Embedding of ContextAwareAIService._analyze_intent_and_decide_action
(src/backend/app/services/context_aware_ai_service_fixed.py, lines
134-218). The whole escalation interaction (client construction, API call,
json.loads) is the llmResponse argument: error is any exception up to and
including JSON parsing. Inside the try block, a missing required key
(KeyError) or an out-of-enum action_type (ValueError from the ActionType
constructor) raises and is caught by the same handler, which returns the
rule-based decision. -/
def analyze_intent_and_decide_action (user_message : String) (context : Ctx)
    (llmResponse : Except String LLMJson) : ActionDecision :=
  let rule_based_decision := rule_based_intent_analysis user_message context
  if rule_based_decision.confidence > mkRat 7 10 then rule_based_decision
  else
    match llmResponse with
    | .error _ => rule_based_decision
    | .ok j =>
      match j.action_type with
      | none => rule_based_decision
      | some ats =>
        match actionTypeFromValue ats with
        | none => rule_based_decision
        | some a =>
          match j.target, j.reasoning with
          | some tgt, some rsn =>
            { action_type := a
              target := tgt
              parameters := j.parameters.getD []
              reasoning := rsn
              confidence := j.confidence.getD (mkRat 8 10) }
          | some _, none => rule_based_decision
          | none, _ => rule_based_decision

/-- Failure of the escalation call, covering every path on which the
source's except-handler fires: the call itself raised (client unavailable,
transport error, malformed JSON), a required key is missing, or the echoed
action_type is outside the closed enum. -/
def escalationFailed (llmResponse : Except String LLMJson) : Bool :=
  match llmResponse with
  | .error _ => true
  | .ok j =>
    match j.action_type with
    | none => true
    | some ats => (actionTypeFromValue ats).isNone || j.target.isNone || j.reasoning.isNone

/-- The newsletter-mutating subset of ActionType named by the target
consistency property. -/
def isNewsletterMutating : ActionType → Bool
  | .generate_newsletter => true
  | .add_events => true
  | .change_tone => true
  | .delete_events => true
  | .update_newsletter => true
  | _ => false

/-- Result dict returned by an action handler, as a string-keyed,
string-valued association list. The handlers of the source return flat
dicts whose values are rendered to text when summarized; only the keys and
the error entry matter to the claims, so values are kept as strings. -/
abbrev ResultMap := List (String × String)

/-- External behavior of the eight action handlers of
ContextAwareAIService._execute_action, each of which may raise: each field
is the observed outcome of one handler call. -/
structure ExecEnv where
  generateNewsletter : List (String × PValue) → Except String ResultMap
  searchFamilyEvents : List (String × PValue) → Except String ResultMap
  updateNewsletter : List (String × PValue) → Except String ResultMap
  changeNewsletterTone : List (String × PValue) → Except String ResultMap
  addEventsToNewsletter : List (String × PValue) → Except String ResultMap
  deleteEventsFromNewsletter : List (String × PValue) → Except String ResultMap
  webSearch : List (String × PValue) → Except String ResultMap
  chatResponse : List (String × PValue) → Except String ResultMap

/-- Embedding of ContextAwareAIService._execute_action
(src/backend/app/services/context_aware_ai_service_fixed.py, lines
353-387): dispatch on action_type over the eight handled members; the two
unhandled members fall to the else branch, which returns a result dict
with an unknown-action error entry; any exception from a handler is caught
and converted into a result dict with an error entry. The function itself
never raises. -/
def execute_action (env : ExecEnv) (action : ActionDecision) : ResultMap :=
  let body : Except String ResultMap :=
    match action.action_type with
    | .generate_newsletter => env.generateNewsletter action.parameters
    | .search_events => env.searchFamilyEvents action.parameters
    | .update_newsletter => env.updateNewsletter action.parameters
    | .change_tone => env.changeNewsletterTone action.parameters
    | .add_events => env.addEventsToNewsletter action.parameters
    | .delete_events => env.deleteEventsFromNewsletter action.parameters
    | .search_web => env.webSearch action.parameters
    | .respond_in_chat => env.chatResponse action.parameters
    | other => .ok [("error", "Unknown action type: " ++ other.pyStr)]
  match body with
  | .ok r => r
  | .error e => [("error", e)]

/-- One turn of the bounded conversation history, as the dict appended by
_update_context_memory. -/
structure Turn where
  timestamp : String
  user_message : String
  action_taken : String
  target : String
  result_summary : String
deriving DecidableEq

/-- The result-summary truncation applied before storing a turn: at most
200 characters of the rendered result, with an ellipsis marker beyond. -/
def resultSummary (rendered : String) : String :=
  if rendered.length > 200 then rendered.take 200 ++ "..." else rendered

/-- Rendering of a result dict to text, standing for the Python str() of
the result dict inside _update_context_memory. The exact text is not load
bearing for any claim; only its truncation is. -/
def renderResult (r : ResultMap) : String :=
  String.intercalate ", " (r.map (fun p => p.1 ++ ": " ++ p.2))

/-- The turn stored for one interaction, as built by _update_context_memory
(timestamp, user message, the action value string, the target, and the
truncated result summary). -/
def mkTurn (now user_message : String) (action : ActionDecision) (result : ResultMap) : Turn :=
  { timestamp := now
    user_message := user_message
    action_taken := action.action_type.value
    target := action.target
    result_summary := resultSummary (renderResult result) }

/-- Embedding of the conversation-history step of
ContextAwareAIService._update_context_memory
(src/backend/app/services/context_aware_ai_service_fixed.py, lines
672-686, and the identical lines 216-230 of context_aware_ai_service.py):
append the new turn, then keep only the last 50 entries when the length
exceeds 50. -/
def update_context_memory (conversation_history : List Turn) (t : Turn) : List Turn :=
  let h := conversation_history ++ [t]
  if h.length > 50 then h.drop (h.length - 50) else h

/-- The four stages of ContextAwareAIService.process_user_request, each
modelled as a call that may raise. -/
structure Stages where
  extractContext : Except String Ctx
  analyze : Ctx → Except String ActionDecision
  execute : ActionDecision → Ctx → Except String ResultMap
  updateMemory : ActionDecision → ResultMap → List Turn → Except String (List Turn)

/-- The response envelope returned by process_user_request: the success
shape carries action metadata and the result; the failure shape carries an
error message and the fixed fallback text. -/
structure Envelope where
  success : Bool
  action_taken : Option String
  target : Option String
  reasoning : Option String
  result : Option ResultMap
  confidence : Option ℚ
  error : Option String
  fallback_response : Option String
deriving DecidableEq

/-- The fixed apology text of the top-level exception handler of
process_user_request in context_aware_ai_service_fixed.py. -/
def fallbackText : String :=
  "I encountered an error processing your request. Could you please rephrase or provide more details?"

/-- The try-block body of process_user_request: run the four stages in
sequence, propagating the first raised exception. -/
def requestPipeline (st : Stages) (hist : List Turn) :
    Except String (ActionDecision × ResultMap × List Turn) := do
  let ctx ← st.extractContext
  let decision ← st.analyze ctx
  let result ← st.execute decision ctx
  let hist2 ← st.updateMemory decision result hist
  pure (decision, result, hist2)

/-- Embedding of ContextAwareAIService.process_user_request
(src/backend/app/services/context_aware_ai_service_fixed.py, lines 71-103,
and the identical skeleton of context_aware_ai_service.py, lines 67-89):
the try block runs the four stages and wraps the outcome into the success
envelope; any exception is caught at this level and converted into the
failure envelope with the fixed fallback text. The history state is passed
explicitly and returned alongside the envelope. -/
def process_user_request (st : Stages) (hist : List Turn) : Envelope × List Turn :=
  match requestPipeline st hist with
  | .ok (decision, result, hist2) =>
    ({ success := true
       action_taken := some decision.action_type.value
       target := some decision.target
       reasoning := some decision.reasoning
       result := some result
       confidence := some decision.confidence
       error := none
       fallback_response := none }, hist2)
  | .error e =>
    ({ success := false
       action_taken := none
       target := none
       reasoning := none
       result := none
       confidence := none
       error := some e
       fallback_response := some fallbackText }, hist)

/-- The concrete wiring of the stages as the service defines them: context
extraction builds the enriched context from the supplied postcode and
cannot raise; intent analysis and dispatch are the embedded functions
(each containing its own exception handling); the memory update appends
the truncated turn under the 50-entry cap. -/
def serviceStages (env : ExecEnv) (user_message now : String)
    (llmResponse : Except String LLMJson) (providedPostcode : Option String) : Stages :=
  { extractContext := .ok ⟨providedPostcode⟩
    analyze := fun ctx => .ok (analyze_intent_and_decide_action user_message ctx llmResponse)
    execute := fun decision _ => .ok (execute_action env decision)
    updateMemory := fun decision result hist =>
      .ok (update_context_memory hist (mkTurn now user_message decision result)) }

/-- An ExecEnv whose handlers all succeed with a fixed payload, used to
exhibit concrete runs of the dispatcher. -/
def trivialExecEnv : ExecEnv :=
  { generateNewsletter := fun _ => .ok [("message", "ok")]
    searchFamilyEvents := fun _ => .ok [("message", "ok")]
    updateNewsletter := fun _ => .ok [("message", "ok")]
    changeNewsletterTone := fun _ => .ok [("message", "ok")]
    addEventsToNewsletter := fun _ => .ok [("message", "ok")]
    deleteEventsFromNewsletter := fun _ => .ok [("message", "ok")]
    webSearch := fun _ => .ok [("message", "ok")]
    chatResponse := fun _ => .ok [("message", "ok")] }

/-- Lookup in an insertion-ordered string-keyed dict: the value at the
first (in a well-formed dict: only) entry with the given key. -/
def dictGet {α : Type} (d : List (String × α)) (k : String) : Option α :=
  match d with
  | [] => none
  | p :: rest => if p.1 = k then some p.2 else dictGet rest k

/-- Assignment d[k] = v with CPython dict semantics: an existing key keeps
its position and receives the new value, a fresh key is appended. -/
def dictSet {α : Type} (d : List (String × α)) (k : String) (v : α) : List (String × α) :=
  if d.any (fun p => p.1 = k) then
    d.map (fun p => if p.1 = k then (k, v) else p)
  else d ++ [(k, v)]

/-- Embedding of Python dict.update(u): assign every entry of u into d in
iteration order. -/
def dictUpdate {α : Type} (d u : List (String × α)) : List (String × α) :=
  u.foldl (fun acc p => dictSet acc p.1 p.2) d

/-- Embedding of ContextAwareAIService.set_user_preferences
(src/backend/app/services/context_aware_ai_service.py, lines 235-236, and
the identical lines 721-723 of the fixed service): the stored preferences
dict is updated in place with the supplied partial dict. -/
def set_user_preferences {α : Type} (user_preferences preferences : List (String × α)) :
    List (String × α) :=
  dictUpdate user_preferences preferences

/-- Location dict built by EnhancedEventScraper._get_location_data from the
postcodes API result. -/
structure LocationData where
  postcode : String
  latitude : ℚ
  longitude : ℚ
  admin_district : String
  region : String
  country : String
deriving DecidableEq

/-- Observed shape of the postcodes.io HTTP response: status code, the
status field of the JSON body, and the result payload (none when the
result key is absent, whose access would raise KeyError). -/
structure PostcodeApiResponse where
  status_code : Nat
  jsonStatus : Option Nat
  result : Option LocationData
deriving DecidableEq

/-- Embedding of EnhancedEventScraper._get_location_data
(src/backend/app/services/enhanced_event_scraper.py, lines 471-496): a
raised transport error is caught and becomes none; a non-200 HTTP status
or JSON status falls through to none; a missing result payload raises
KeyError inside the try block, also caught to none. -/
def get_location_data (response : Except String PostcodeApiResponse) : Option LocationData :=
  match response with
  | .error _ => none
  | .ok r =>
    if r.status_code = 200 then
      if r.jsonStatus = some 200 then r.result else none
    else none

/-- External behavior of the collaborator calls made inside
EnhancedEventScraper.search_events: the postcode lookup and the five
per-source searches (each gathered with return_exceptions), plus the three
internal processing steps, each of which may in principle raise and is
then handled by the try/except of search_events. -/
structure ScraperEnv where
  locationResponse : String → Except String PostcodeApiResponse
  eventbriteSearch : LocationData → ℚ → Except String (List EventRec)
  meetupSearch : LocationData → ℚ → Except String (List EventRec)
  councilSearch : LocationData → ℚ → Except String (List EventRec)
  communitySearch : LocationData → ℚ → Except String (List EventRec)
  librarySearch : LocationData → ℚ → Except String (List EventRec)
  filterFamilyFriendly : List EventRec → Except String (List EventRec)
  dedupe : List EventRec → Except String (List EventRec)
  organize : List EventRec → String → Except String (List EventRec)

/-- Collection of the gathered per-source results, modelling the loop over
asyncio.gather(..., return_exceptions=True): list results are concatenated
in task order, exceptions are logged and skipped. -/
def gatherResults (results : List (Except String (List EventRec))) : List EventRec :=
  results.foldl
    (fun all_events r =>
      match r with
      | .ok l => all_events ++ l
      | .error _ => all_events)
    []

/-- Embedding of EnhancedEventScraper.search_events
(src/backend/app/services/enhanced_event_scraper.py, lines 21-90). The
return type admits raising to the caller, but the body wraps everything in
the try/except that converts any exception into an empty list; a failed
location lookup returns the empty list early; fewer than 5 unique events
with fewer than 4 radius attempts triggers a retry at 1.5 times the
radius. -/
def search_events (env : ScraperEnv) (postcode : String) (radius : ℚ)
    (frequency : String) (current_radius_attempt : Nat) : Except String (List EventRec) :=
  let body : Except String (List EventRec) :=
    match get_location_data (env.locationResponse postcode) with
    | none => .ok []
    | some location_data =>
      let results :=
        [env.eventbriteSearch location_data radius,
          env.meetupSearch location_data radius,
          env.councilSearch location_data radius,
          env.communitySearch location_data radius,
          env.librarySearch location_data radius]
      let all_events := gatherResults results
      (env.filterFamilyFriendly all_events).bind (fun family_events =>
        (env.dedupe family_events).bind (fun unique_events =>
          if h : unique_events.length < 5 ∧ current_radius_attempt < 4 then
            search_events env postcode (radius * mkRat 3 2) frequency (current_radius_attempt + 1)
          else
            env.organize unique_events frequency))
  match body with
  | .ok organized_events => .ok organized_events
  | .error _ => .ok []
termination_by 4 - current_radius_attempt
decreasing_by
  simp_wf
  omega

/-- Characterization of which images entry survives validate_images,
written as a per-entry function so the list behavior can be stated as a
single filterMap. -/
def imageKeep (img : ImageEntry) : Option String :=
  match img with
  | ImageEntry.str s =>
    if strStartsWith s "http://" || strStartsWith s "https://" then some s
    else if strEndsWith s ".jpg" || strEndsWith s ".png" || strEndsWith s ".jpeg" then none
    else some s
  | ImageEntry.nonString => none

/-- Stages whose intent-analysis stage raises, exhibiting a concrete failed
request (the lazy OpenAI client construction raising on first use). -/
def failingStages : Stages :=
  { extractContext := .ok ⟨none⟩
    analyze := fun _ => .error "OpenAI client not available"
    execute := fun _ _ => .ok []
    updateMemory := fun _ _ hist => .ok hist }

/-- A ScraperEnv whose postcode lookup yields an HTTP 404, exhibiting a
concrete failed location lookup; the remaining collaborators succeed with
empty results. -/
def noLocationScraperEnv : ScraperEnv :=
  { locationResponse := fun _ => .ok ⟨404, none, none⟩
    eventbriteSearch := fun _ _ => .ok []
    meetupSearch := fun _ _ => .ok []
    councilSearch := fun _ _ => .ok []
    communitySearch := fun _ _ => .ok []
    librarySearch := fun _ _ => .ok []
    filterFamilyFriendly := fun l => .ok l
    dedupe := fun l => .ok l
    organize := fun l _ => .ok l }

/-- A concrete location record as the postcodes.io lookup returns it. -/
def sampleLocation : LocationData :=
  { postcode := "TS1 3BA"
    latitude := mkRat 546 10
    longitude := mkRat (-12) 10
    admin_district := "Middlesbrough"
    region := "North East"
    country := "England" }

/-- Five distinct events returned by one per-source search, enough to keep
the retry guard (fewer than 5 unique events) from firing. -/
def partialSourceEvents : List EventRec :=
  [⟨"Free Family Fun Day", "d1", "Community Centre", "Free", "2025-01-03"⟩,
    ⟨"Story Time", "d2", "Library", "Free", "2025-01-04"⟩,
    ⟨"Sports Taster", "d3", "Leisure Centre", "Free", "2025-01-05"⟩,
    ⟨"Park Nature Walk", "d4", "Park", "Free", "2025-01-06"⟩,
    ⟨"Community Lunch", "d5", "Church Hall", "Free", "2025-01-07"⟩]

/-- A ScraperEnv in which the postcode lookup succeeds, one per-source
search (Eventbrite) raises, another (Meetup) returns five events, and the
processing steps succeed: it exhibits how the gather step tolerates a
per-source failure and keeps the other sources' results. -/
def partialFailureScraperEnv : ScraperEnv :=
  { locationResponse := fun _ => .ok ⟨200, some 200, some sampleLocation⟩
    eventbriteSearch := fun _ _ => .error "eventbrite timeout"
    meetupSearch := fun _ _ => .ok partialSourceEvents
    councilSearch := fun _ _ => .ok []
    communitySearch := fun _ _ => .ok []
    librarySearch := fun _ _ => .ok []
    filterFamilyFriendly := fun l => .ok l
    dedupe := fun l => .ok l
    organize := fun l _ => .ok l }

/-- The malformed escalation reply used to exhibit a target-inconsistent
decision: a newsletter-mutating action_type echoed with a chat target. -/
def chatTargetedGenerateReply : LLMJson :=
  { action_type := some "generate_newsletter"
    target := some "chat"
    parameters := some []
    reasoning := some "generate a newsletter"
    confidence := some (mkRat 9 10) }

/-- The escalation reply used to exhibit the unknown-action dispatch path:
a member of the closed enum that _execute_action has no handler for. -/
def changeEventsReply : LLMJson :=
  { action_type := some "change_events"
    target := some "newsletter"
    parameters := some []
    reasoning := some "change the events"
    confidence := some (mkRat 9 10) }

theorem validate_images_foldl (v : List ImageEntry) (acc : List String) :
    (v.foldl
      (fun valid_images img =>
        match img with
        | ImageEntry.str s =>
          if strStartsWith s "http://" || strStartsWith s "https://" then
            valid_images ++ [s]
          else if strEndsWith s ".jpg" || strEndsWith s ".png" || strEndsWith s ".jpeg" then
            valid_images
          else
            valid_images ++ [s]
        | ImageEntry.nonString => valid_images)
      acc) = acc ++ v.filterMap imageKeep := by
  induction v generalizing acc with
  | nil => simp
  | cons img rest ih =>
    cases img with
    | str s =>
      simp only [List.foldl_cons, List.filterMap_cons, imageKeep]
      split_ifs with h1 h2
      · rw [ih]
        simp
      · exact ih acc
      · rw [ih]
        simp
    | nonString =>
      simp only [List.foldl_cons, List.filterMap_cons, imageKeep]
      exact ih acc

/-- C3 (amended): validate_images keeps, in order, exactly the string
entries that either carry an http:// or https:// scheme or do not end in
.jpg/.png/.jpeg; bare image filenames (entries ending in one of the three
image suffixes without a scheme) and non-strings are dropped, while
schemeless strings without those suffixes are retained. -/
theorem images_validator_characterization (v : List ImageEntry) :
    validate_images v = v.filterMap imageKeep ∧
    (∀ s : String,
      (strStartsWith s "http://" || strStartsWith s "https://") = false →
      (strEndsWith s ".jpg" || strEndsWith s ".png" || strEndsWith s ".jpeg") = true →
      imageKeep (ImageEntry.str s) = none) := by
  constructor
  · unfold validate_images
    by_cases hv : v = []
    · simp [hv]
    · rw [if_neg hv]
      simpa using validate_images_foldl v []
  · intro s h1 h2
    simp [imageKeep, h1, h2]

theorem images_validator_characterization_witness :
    validate_images
        [ImageEntry.str "https://x.com/a.jpg", ImageEntry.str "placeholder.jpg",
          ImageEntry.str "http://y.com/b.png"] =
      ["https://x.com/a.jpg", "http://y.com/b.png"] ∧
    imageKeep (ImageEntry.str "placeholder.jpg") = none :=
  ⟨(images_validator_characterization
      [ImageEntry.str "https://x.com/a.jpg", ImageEntry.str "placeholder.jpg",
        ImageEntry.str "http://y.com/b.png"]).1.trans (by decide),
    (images_validator_characterization []).2 "placeholder.jpg" (by decide) (by decide)⟩

theorem images_validator_keeps_schemeless_nonimage :
    validate_images [ImageEntry.str "banner.gif"] = ["banner.gif"] ∧
    strStartsWith "banner.gif" "http://" = false ∧
    strStartsWith "banner.gif" "https://" = false := by decide

/-- C1 (amended): the events field produced by the Hallucination Guard is
the verified list filtered by the required-field structure validator —
never any candidate event — and it equals the verified list exactly (same
values, length, order) whenever every verified event has its four required
fields non-empty. -/
theorem hallucination_guard_allowlist (candidate verified : List EventRec) :
    validate_and_enhance_events candidate verified =
      verified.filter (fun e => validate_event_structure e) ∧
    ((∀ e ∈ verified, validate_event_structure e = true) →
      validate_and_enhance_events candidate verified = verified) := by
  have h1 : validate_and_enhance_events candidate verified =
      verified.filter (fun e => validate_event_structure e) := by
    unfold validate_and_enhance_events
    by_cases hv : verified.isEmpty
    · rw [List.isEmpty_iff] at hv
      simp [hv]
    · simp [hv]
  exact ⟨h1, fun hall => h1.trans (List.filter_eq_self.mpr hall)⟩

theorem hallucination_guard_allowlist_witness :
    validate_and_enhance_events
        [⟨"Fake Gala", "d", "Avalon Hall", "Free", "2025-01-01"⟩]
        [⟨"Real Fair", "d", "Library", "Free", "2025-01-02"⟩] =
      [⟨"Real Fair", "d", "Library", "Free", "2025-01-02"⟩] :=
  (hallucination_guard_allowlist
      [⟨"Fake Gala", "d", "Avalon Hall", "Free", "2025-01-01"⟩]
      [⟨"Real Fair", "d", "Library", "Free", "2025-01-02"⟩]).2 (by decide)

theorem hallucination_guard_drops_invalid_verified :
    validate_and_enhance_events [] [⟨"Real Fair", "d", "Library", "Free", ""⟩] = [] ∧
    validate_and_enhance_events [] [⟨"Real Fair", "d", "Library", "Free", ""⟩] ≠
      [⟨"Real Fair", "d", "Library", "Free", ""⟩] := by decide

/-- C2 (amended): the rule-based classifier checks its pattern groups in a
fixed priority order in which event-search phrasing is checked before
web-search phrasing; hence every message matching both an event-search
pattern and a web-search pattern, and none of the four groups of higher
priority, is classified as an event search. -/
theorem classifier_event_before_web (user_message : String) (context : Ctx)
    (hNews : matchesAny (strToLower user_message) newsletterGenPhrases = false)
    (hAdd : matchesAny (strToLower user_message) addEventsPhrases = false)
    (hTone : matchesAny (strToLower user_message) changeTonePhrases = false)
    (hDel : matchesAny (strToLower user_message) deleteEventsPhrases = false)
    (hEv : matchesAny (strToLower user_message) searchEventsPhrases = true)
    (_hWeb : matchesAny (strToLower user_message) webSearchPhrases = true) :
    (rule_based_intent_analysis user_message context).action_type = ActionType.search_events := by
  unfold rule_based_intent_analysis
  simp [hNews, hAdd, hTone, hDel, hEv]

theorem classifier_event_before_web_witness :
    (rule_based_intent_analysis "search for events happening" ⟨none⟩).action_type =
      ActionType.search_events :=
  classifier_event_before_web "search for events happening" ⟨none⟩
    (by decide) (by decide) (by decide) (by decide) (by decide) (by decide)

theorem classifier_web_match_classified_as_events :
    matchesAny (strToLower "search for events happening") webSearchPhrases = true ∧
    matchesAny (strToLower "search for events happening") searchEventsPhrases = true ∧
    (rule_based_intent_analysis "search for events happening" ⟨none⟩).action_type =
      ActionType.search_events ∧
    (rule_based_intent_analysis "search for events happening" ⟨none⟩).action_type ≠
      ActionType.search_web := by decide

/-- C7 (amended): every ActionDecision produced by the rule-based intent
analysis whose action_type is newsletter-mutating has target newsletter;
the escalation path can instead return the model-supplied target
unchecked. -/
theorem rule_based_mutating_targets_newsletter (user_message : String) (context : Ctx)
    (h : isNewsletterMutating (rule_based_intent_analysis user_message context).action_type = true) :
    (rule_based_intent_analysis user_message context).target = "newsletter" := by
  unfold rule_based_intent_analysis at h ⊢
  dsimp only at h ⊢
  split_ifs at h ⊢ <;> simp_all [isNewsletterMutating]

theorem rule_based_mutating_targets_newsletter_witness :
    (rule_based_intent_analysis "generate newsletter" ⟨none⟩).target = "newsletter" :=
  rule_based_mutating_targets_newsletter "generate newsletter" ⟨none⟩ (by decide)

theorem escalation_can_break_target_consistency :
    (analyze_intent_and_decide_action "hello" ⟨none⟩ (.ok chatTargetedGenerateReply)).action_type =
      ActionType.generate_newsletter ∧
    isNewsletterMutating
      (analyze_intent_and_decide_action "hello" ⟨none⟩ (.ok chatTargetedGenerateReply)).action_type
        = true ∧
    (analyze_intent_and_decide_action "hello" ⟨none⟩ (.ok chatTargetedGenerateReply)).target =
      "chat" ∧
    (analyze_intent_and_decide_action "hello" ⟨none⟩ (.ok chatTargetedGenerateReply)).target ≠
      "newsletter" := by decide

/-- C8: when the rule-based confidence does not clear the 0.7 threshold and
the generative escalation is consulted, any failure of that call — the
call raising (client unavailable, transport failure, malformed JSON), a
missing required key, or an echoed action_type outside the closed enum —
makes intent analysis return the rule-based decision unchanged, with its
original confidence. -/
theorem escalation_failure_falls_back (user_message : String) (context : Ctx)
    (llmResponse : Except String LLMJson)
    (hconf : ¬ (rule_based_intent_analysis user_message context).confidence > mkRat 7 10)
    (hfail : escalationFailed llmResponse = true) :
    analyze_intent_and_decide_action user_message context llmResponse =
      rule_based_intent_analysis user_message context := by
  unfold analyze_intent_and_decide_action
  rw [if_neg hconf]
  cases llmResponse with
  | error e => rfl
  | ok j =>
    unfold escalationFailed at hfail
    obtain ⟨jat, jtgt, jpar, jrsn, jconf⟩ := j
    cases jat with
    | none => rfl
    | some ats =>
      simp only at hfail
      cases hval : actionTypeFromValue ats with
      | none => simp [hval]
      | some a =>
        rw [hval] at hfail
        cases jtgt with
        | none => simp [hval]
        | some tgt =>
          cases jrsn with
          | none => simp [hval]
          | some rsn => simp at hfail

theorem escalation_failure_falls_back_witness :
    analyze_intent_and_decide_action "hello" ⟨none⟩ (.error "OpenAI client not available") =
      rule_based_intent_analysis "hello" ⟨none⟩ :=
  escalation_failure_falls_back "hello" ⟨none⟩ (.error "OpenAI client not available")
    (by decide) (by decide)

theorem update_context_memory_drop_eq (hist : List Turn) (t : Turn) :
    update_context_memory hist t = (hist ++ [t]).drop ((hist ++ [t]).length - 50) := by
  unfold update_context_memory
  dsimp only
  split_ifs with h
  · rfl
  · have hz : (hist ++ [t]).length - 50 = 0 := by omega
    rw [hz, List.drop_zero]

/-- C6: starting from an empty history, recording any sequence of turns
leaves the conversation history holding exactly the most recent turns (all
of them when there are at most 50, the last 50 otherwise) in chronological
order, and its length never exceeds 50; eviction removes oldest turns
first. -/
theorem conversation_history_bounded_fifo (ts : List Turn) :
    ts.foldl update_context_memory [] = ts.drop (ts.length - 50) ∧
    (ts.foldl update_context_memory []).length ≤ 50 := by
  have main : ∀ l : List Turn, l.foldl update_context_memory [] = l.drop (l.length - 50) := by
    intro l
    induction l using List.reverseRecOn with
    | nil => rfl
    | append_singleton xs x ih =>
      rw [List.foldl_append, ih, List.foldl_cons, List.foldl_nil, update_context_memory_drop_eq]
      rw [← List.drop_append_of_le_length (by omega : xs.length - 50 ≤ xs.length)]
      rw [List.drop_drop]
      congr 1
      simp only [List.length_drop, List.length_append, List.length_cons, List.length_nil]
      omega
  refine ⟨main ts, ?_⟩
  rw [main ts]
  simp only [List.length_drop]
  omega

/-- C5: whenever the staged pipeline of process_user_request fails with a
(non-empty) exception message, the caller still receives the well-formed
failure envelope: success false, the error message, and the fixed fallback
text; the history state is left as it was and no exception escapes. -/
theorem orchestrator_error_envelope (st : Stages) (hist : List Turn) (m : String)
    (hfail : requestPipeline st hist = .error m) (hm : m ≠ "") :
    (process_user_request st hist).1.success = false ∧
    (process_user_request st hist).1.error = some m ∧
    m ≠ "" ∧
    (process_user_request st hist).1.fallback_response = some fallbackText ∧
    fallbackText ≠ "" ∧
    (process_user_request st hist).2 = hist := by
  unfold process_user_request
  rw [hfail]
  exact ⟨rfl, rfl, hm, rfl, by decide, rfl⟩

theorem orchestrator_error_envelope_witness :
    (process_user_request failingStages []).1.success = false ∧
    (process_user_request failingStages []).1.error = some "OpenAI client not available" ∧
    "OpenAI client not available" ≠ "" ∧
    (process_user_request failingStages []).1.fallback_response = some fallbackText ∧
    fallbackText ≠ "" ∧
    (process_user_request failingStages []).2 = [] :=
  orchestrator_error_envelope failingStages [] "OpenAI client not available" rfl (by decide)

/-- C4 (amended): an ActionDecision whose action_type has no dispatcher
handler (the two unhandled enum members) yields a result dict whose error
entry states the action type is unknown; the dispatcher returns it as an
ordinary result, so the orchestrator envelope still reports success true
with no top-level error, and the turn is recorded normally — the failure
is confined to that single request and the service state stays usable. -/
theorem unknown_action_envelope (env : ExecEnv) (msg now : String)
    (llm : Except String LLMJson) (pc : Option String) (hist : List Turn)
    (h : (analyze_intent_and_decide_action msg ⟨pc⟩ llm).action_type = ActionType.change_events ∨
      (analyze_intent_and_decide_action msg ⟨pc⟩ llm).action_type = ActionType.customize_content) :
    execute_action env (analyze_intent_and_decide_action msg ⟨pc⟩ llm) =
      [("error", "Unknown action type: "
        ++ (analyze_intent_and_decide_action msg ⟨pc⟩ llm).action_type.pyStr)] ∧
    (process_user_request (serviceStages env msg now llm pc) hist).1.success = true ∧
    (process_user_request (serviceStages env msg now llm pc) hist).1.result =
      some [("error", "Unknown action type: "
        ++ (analyze_intent_and_decide_action msg ⟨pc⟩ llm).action_type.pyStr)] ∧
    (process_user_request (serviceStages env msg now llm pc) hist).1.error = none ∧
    (process_user_request (serviceStages env msg now llm pc) hist).2 =
      update_context_memory hist
        (mkTurn now msg (analyze_intent_and_decide_action msg ⟨pc⟩ llm)
          [("error", "Unknown action type: "
            ++ (analyze_intent_and_decide_action msg ⟨pc⟩ llm).action_type.pyStr)]) := by
  have hexec : execute_action env (analyze_intent_and_decide_action msg ⟨pc⟩ llm) =
      [("error", "Unknown action type: "
        ++ (analyze_intent_and_decide_action msg ⟨pc⟩ llm).action_type.pyStr)] := by
    rcases h with h | h <;> simp [execute_action, h]
  have hpipe : requestPipeline (serviceStages env msg now llm pc) hist =
      .ok (analyze_intent_and_decide_action msg ⟨pc⟩ llm,
        execute_action env (analyze_intent_and_decide_action msg ⟨pc⟩ llm),
        update_context_memory hist
          (mkTurn now msg (analyze_intent_and_decide_action msg ⟨pc⟩ llm)
            (execute_action env (analyze_intent_and_decide_action msg ⟨pc⟩ llm)))) := rfl
  refine ⟨hexec, ?_, ?_, ?_, ?_⟩
  · unfold process_user_request
    rw [hpipe]
  · unfold process_user_request
    rw [hpipe]
    simp [hexec]
  · unfold process_user_request
    rw [hpipe]
  · unfold process_user_request
    rw [hpipe]
    simp [hexec]

theorem unknown_action_envelope_witness :
    execute_action trivialExecEnv
        (analyze_intent_and_decide_action "hello" ⟨none⟩ (.ok changeEventsReply)) =
      [("error", "Unknown action type: "
        ++ (analyze_intent_and_decide_action "hello" ⟨none⟩ (.ok changeEventsReply)).action_type.pyStr)] ∧
    (process_user_request
        (serviceStages trivialExecEnv "hello" "2025-01-01T00:00:00" (.ok changeEventsReply) none)
        []).1.success = true ∧
    (process_user_request
        (serviceStages trivialExecEnv "hello" "2025-01-01T00:00:00" (.ok changeEventsReply) none)
        []).1.result =
      some [("error", "Unknown action type: "
        ++ (analyze_intent_and_decide_action "hello" ⟨none⟩ (.ok changeEventsReply)).action_type.pyStr)] ∧
    (process_user_request
        (serviceStages trivialExecEnv "hello" "2025-01-01T00:00:00" (.ok changeEventsReply) none)
        []).1.error = none ∧
    (process_user_request
        (serviceStages trivialExecEnv "hello" "2025-01-01T00:00:00" (.ok changeEventsReply) none)
        []).2 =
      update_context_memory []
        (mkTurn "2025-01-01T00:00:00" "hello"
          (analyze_intent_and_decide_action "hello" ⟨none⟩ (.ok changeEventsReply))
          [("error", "Unknown action type: "
            ++ (analyze_intent_and_decide_action "hello" ⟨none⟩ (.ok changeEventsReply)).action_type.pyStr)]) :=
  unknown_action_envelope trivialExecEnv "hello" "2025-01-01T00:00:00"
    (.ok changeEventsReply) none [] (Or.inl (by decide))

theorem unknown_action_reports_success_true :
    (process_user_request
        (serviceStages trivialExecEnv "hello" "2025-01-01T00:00:00" (.ok changeEventsReply) none)
        []).1.success = true ∧
    (process_user_request
        (serviceStages trivialExecEnv "hello" "2025-01-01T00:00:00" (.ok changeEventsReply) none)
        []).1.success ≠ false ∧
    execute_action trivialExecEnv
        (analyze_intent_and_decide_action "hello" ⟨none⟩ (.ok changeEventsReply)) =
      [("error", "Unknown action type: ActionType.CHANGE_EVENTS")] := by decide

theorem dictGet_map_set {α : Type} (d : List (String × α)) (k : String) (v : α) (x : String) :
    dictGet (d.map (fun p => if p.1 = k then (k, v) else p)) x =
      if x = k then (if d.any (fun p => p.1 = k) then some v else none)
      else dictGet d x := by
  induction d with
  | nil => simp [dictGet]
  | cons p rest ih =>
    obtain ⟨a, b⟩ := p
    by_cases hak : a = k <;> by_cases hxk : x = k <;>
      simp_all [dictGet] <;> split_ifs <;> simp_all

theorem dictGet_append {α : Type} (d e : List (String × α)) (x : String) :
    dictGet (d ++ e) x =
      match dictGet d x with
      | some v => some v
      | none => dictGet e x := by
  induction d with
  | nil => rfl
  | cons p rest ih =>
    by_cases hp : p.1 = x <;> simp [dictGet, hp, ih]

theorem dictGet_none_of_any_false {α : Type} (d : List (String × α)) (k : String)
    (h : d.any (fun p => p.1 = k) = false) : dictGet d k = none := by
  induction d with
  | nil => rfl
  | cons p rest ih =>
    simp only [List.any_cons, Bool.or_eq_false_iff, decide_eq_false_iff_not] at h
    simp [dictGet, h.1, ih h.2]

theorem dictGet_dictSet {α : Type} (d : List (String × α)) (k : String) (v : α) (x : String) :
    dictGet (dictSet d k v) x = if x = k then some v else dictGet d x := by
  by_cases hany : (d.any fun p => p.1 = k) = true
  · have hset : dictSet d k v = d.map (fun p => if p.1 = k then (k, v) else p) := by
      unfold dictSet
      rw [if_pos hany]
    rw [hset, dictGet_map_set]
    simp [hany]
  · have hset : dictSet d k v = d ++ [(k, v)] := by
      unfold dictSet
      rw [if_neg hany]
    have hnone : dictGet d k = none :=
      dictGet_none_of_any_false d k (Bool.eq_false_iff.mpr hany)
    rw [hset, dictGet_append]
    by_cases hxk : x = k
    · subst hxk
      rw [hnone]
      simp [dictGet]
    · have hkx : ¬ k = x := fun h => hxk h.symm
      cases hd : dictGet d x with
      | some w => simp [hd, hxk]
      | none => simp [hd, dictGet, hxk, hkx]

theorem dictGet_none_of_not_mem {α : Type} (u : List (String × α)) (k : String)
    (h : k ∉ u.map Prod.fst) : dictGet u k = none := by
  induction u with
  | nil => rfl
  | cons p rest ih =>
    have h1 : ¬ p.1 = k := fun hh => h (by simp [hh])
    have h2 : k ∉ rest.map Prod.fst := fun hh => h (by simp [hh])
    simp [dictGet, h1, ih h2]

theorem dictUpdate_lookup {α : Type} :
    ∀ (u d : List (String × α)) (k : String), (u.map Prod.fst).Nodup →
      dictGet (dictUpdate d u) k =
        if k ∈ u.map Prod.fst then dictGet u k else dictGet d k := by
  intro u
  induction u with
  | nil =>
    intro d k _
    simp [dictUpdate]
  | cons p u ih =>
    intro d k hu
    obtain ⟨a, b⟩ := p
    rw [List.map_cons] at hu
    obtain ⟨ha, hnd⟩ := List.nodup_cons.mp hu
    rw [show dictUpdate d ((a, b) :: u) = dictUpdate (dictSet d a b) u from rfl]
    rw [ih (dictSet d a b) k hnd, dictGet_dictSet]
    by_cases hka : k = a
    · subst hka
      simp [ha, dictGet]
    · have hak : ¬ a = k := fun h => hka h.symm
      by_cases hk : k ∈ u.map Prod.fst
      · simp [hk, hka, hak, dictGet]
      · simp [hk, hka, hak, dictGet]

/-- C9: merging user preferences is additive: after
set_user_preferences, a key present in the partial update reads its
updated value, while every key absent from the update reads exactly what
the previous preferences map held — the stored map is never wholesale
replaced. -/
theorem preferences_merge_additive {α : Type} (d u : List (String × α)) (k : String)
    (hu : (u.map Prod.fst).Nodup) :
    dictGet (set_user_preferences d u) k =
      if k ∈ u.map Prod.fst then dictGet u k else dictGet d k :=
  dictUpdate_lookup u d k hu

theorem preferences_merge_additive_witness :
    dictGet (set_user_preferences [("a", 1)] [("b", 2)]) "a" = some 1 ∧
    dictGet (set_user_preferences [("a", 1)] [("b", 2)]) "b" = some 2 ∧
    set_user_preferences (set_user_preferences ([] : List (String × Nat)) [("a", 1)]) [("b", 2)] =
      [("a", 1), ("b", 2)] :=
  ⟨(preferences_merge_additive [("a", 1)] [("b", 2)] "a" (by decide)).trans (by decide),
    (preferences_merge_additive [("a", 1)] [("b", 2)] "b" (by decide)).trans (by decide),
    by decide⟩

theorem scraper_organize_failure_aux (env : ScraperEnv) (postcode : String) (frequency : String)
    (horg : ∀ xs fr, ∃ e, env.organize xs fr = Except.error e) :
    ∀ (n attempt : Nat) (radius : ℚ), 4 - attempt ≤ n →
      search_events env postcode radius frequency attempt = .ok [] := by
  intro n
  induction n with
  | zero =>
    intro attempt radius hle
    unfold search_events
    dsimp only
    cases hloc : get_location_data (env.locationResponse postcode) with
    | none => rfl
    | some loc =>
      dsimp only
      cases hfil : env.filterFamilyFriendly (gatherResults
          [env.eventbriteSearch loc radius, env.meetupSearch loc radius,
            env.councilSearch loc radius, env.communitySearch loc radius,
            env.librarySearch loc radius]) with
      | error e => rfl
      | ok family =>
        simp only [Except.bind]
        cases hded : env.dedupe family with
        | error e => rfl
        | ok unique =>
          simp only [Except.bind]
          rw [dif_neg (by omega : ¬(unique.length < 5 ∧ attempt < 4))]
          obtain ⟨e, he⟩ := horg unique frequency
          rw [he]
  | succ n ih =>
    intro attempt radius hle
    unfold search_events
    dsimp only
    cases hloc : get_location_data (env.locationResponse postcode) with
    | none => rfl
    | some loc =>
      dsimp only
      cases hfil : env.filterFamilyFriendly (gatherResults
          [env.eventbriteSearch loc radius, env.meetupSearch loc radius,
            env.councilSearch loc radius, env.communitySearch loc radius,
            env.librarySearch loc radius]) with
      | error e => rfl
      | ok family =>
        simp only [Except.bind]
        cases hded : env.dedupe family with
        | error e => rfl
        | ok unique =>
          simp only [Except.bind]
          by_cases hguard : unique.length < 5 ∧ attempt < 4
          · rw [dif_pos hguard]
            rw [ih (attempt + 1) (radius * mkRat 3 2) (by omega)]
          · rw [dif_neg hguard]
            obtain ⟨e, he⟩ := horg unique frequency
            rw [he]

/-- C10 (amended): search_events never surfaces an exception to its caller
— for every collaborator behavior it returns an ok list. When the
postcode-to-location lookup yields no location it returns the empty list,
and when the family-filtering, deduplication, or schedule-organizing step
raises, the top-level handler also turns the outcome into the empty list.
A failure of an individual per-source search is instead tolerated by the
gather step, which keeps the other sources' results. -/
theorem scraper_error_containment (env : ScraperEnv) (postcode : String) (radius : ℚ)
    (frequency : String) (attempt : Nat) :
    (∃ l, search_events env postcode radius frequency attempt = .ok l) ∧
    (get_location_data (env.locationResponse postcode) = none →
      search_events env postcode radius frequency attempt = .ok []) ∧
    ((∀ xs, ∃ e, env.filterFamilyFriendly xs = Except.error e) →
      search_events env postcode radius frequency attempt = .ok []) ∧
    ((∀ xs, ∃ e, env.dedupe xs = Except.error e) →
      search_events env postcode radius frequency attempt = .ok []) ∧
    ((∀ xs fr, ∃ e, env.organize xs fr = Except.error e) →
      search_events env postcode radius frequency attempt = .ok []) := by
  refine ⟨?_, ?_, ?_, ?_, ?_⟩
  · unfold search_events
    dsimp only
    split
    · exact ⟨_, rfl⟩
    · exact ⟨[], rfl⟩
  · intro hnone
    unfold search_events
    dsimp only
    rw [hnone]
  · intro hfail
    unfold search_events
    dsimp only
    cases hloc : get_location_data (env.locationResponse postcode) with
    | none => rfl
    | some loc =>
      dsimp only
      obtain ⟨e, he⟩ := hfail (gatherResults
        [env.eventbriteSearch loc radius, env.meetupSearch loc radius,
          env.councilSearch loc radius, env.communitySearch loc radius,
          env.librarySearch loc radius])
      rw [he]
      rfl
  · intro hfail
    unfold search_events
    dsimp only
    cases hloc : get_location_data (env.locationResponse postcode) with
    | none => rfl
    | some loc =>
      dsimp only
      cases hfil : env.filterFamilyFriendly (gatherResults
          [env.eventbriteSearch loc radius, env.meetupSearch loc radius,
            env.councilSearch loc radius, env.communitySearch loc radius,
            env.librarySearch loc radius]) with
      | error e => rfl
      | ok family =>
        simp only [Except.bind]
        obtain ⟨e, he⟩ := hfail family
        rw [he]
  · intro horg
    exact scraper_organize_failure_aux env postcode frequency horg 4 attempt radius (by omega)

theorem scraper_error_containment_witness :
    search_events noLocationScraperEnv "ZZ1 1ZZ" (mkRat 5 1) "weekly" 1 = .ok [] ∧
    get_location_data (noLocationScraperEnv.locationResponse "ZZ1 1ZZ") = none :=
  ⟨(scraper_error_containment noLocationScraperEnv "ZZ1 1ZZ" (mkRat 5 1) "weekly" 1).2.1 rfl,
    rfl⟩

theorem scraper_partial_results_on_source_failure :
    partialFailureScraperEnv.eventbriteSearch sampleLocation (mkRat 5 1) =
      Except.error "eventbrite timeout" ∧
    search_events partialFailureScraperEnv "TS1 3BA" (mkRat 5 1) "weekly" 1 =
      .ok partialSourceEvents ∧
    partialSourceEvents ≠ ([] : List EventRec) := by
  refine ⟨rfl, ?_, by decide⟩
  unfold search_events
  rfl

end NewsGen
